import Mathlib

/-
Verification of the payment-routing engine of rinha-backend-2025.

The definitions below are shallow embeddings of the Go source:
  * internal/circuitbreaker (the breaker state machine and the two
    per-processor configurations),
  * internal/redis/storage.go (payment storage, completion flags and the
    aggregate summaries updated by the Lua completion script),
  * internal/redis (the job queue records), internal/workers
    (the worker pool and the channel-based pool variant),
  * internal/processors (the outbound client and the health-gated
    fallback routing),
  * internal/server (the POST /payments handlers) and
    internal/database (the health handler).

Machine integers (uint32 counts, uint64 generation, int64 cents) are
modelled as Nat/Int: every counter only grows by single increments per
observed event, so wraparound is unreachable in any feasible execution.
Go float64 amounts are modelled as rationals; timestamps (time.Time)
as Nat instants, with Go's zero time encoded as 0.
-/

namespace RinhaBackend

/-! ## Circuit breaker (internal/circuitbreaker, server part of part_014) -/

/-- Mirror of circuitbreaker.Counts (uint32 fields). -/
structure Counts where
  requests : Nat
  totalSuccesses : Nat
  totalFailures : Nat
  consecutiveSuccesses : Nat
  consecutiveFailures : Nat
deriving DecidableEq, Repr

def Counts.zero : Counts := ⟨0, 0, 0, 0, 0⟩

/-- Mirror of circuitbreaker.State (Closed / Open / HalfOpen). -/
inductive CBState
  | closed
  | opened
  | halfOpen
deriving DecidableEq, Repr

/-- Immutable configuration of a CircuitBreaker: maxRequests, interval,
timeout (both durations as Nat instants) and the ReadyToTrip predicate. -/
structure CBConfig where
  maxRequests : Nat
  interval : Nat
  timeout : Nat
  readyToTrip : Counts → Bool

/-- Mutable part of a CircuitBreaker: state, generation, counts, expiry.
`expiry = 0` encodes Go's zero time.Time. -/
structure CBData where
  state : CBState
  generation : Nat
  counts : Counts
  expiry : Nat
deriving DecidableEq, Repr

inductive CBError
  | openState
  | tooManyRequests
deriving DecidableEq, Repr

/-- Mirror of CircuitBreaker.toNewGeneration. -/
def toNewGeneration (cfg : CBConfig) (cb : CBData) (now : Nat) : CBData :=
  { cb with
    generation := cb.generation + 1
    counts := Counts.zero
    expiry := if cfg.interval = 0 then 0 else now + cfg.interval }

/-- Mirror of CircuitBreaker.setState (early return when the state is
unchanged, otherwise a transition that renews generation and counts). -/
def setState (cfg : CBConfig) (cb : CBData) (s : CBState) (now : Nat) : CBData :=
  if cb.state = s then cb
  else
    let cb1 := { cb with state := s }
    match s with
    | .closed => toNewGeneration cfg cb1 now
    | .opened =>
        { cb1 with
          generation := cb1.generation + 1
          counts := Counts.zero
          expiry := now + cfg.timeout }
    | .halfOpen =>
        { cb1 with
          generation := cb1.generation + 1
          counts := Counts.zero
          expiry := 0 }

/-- Mirror of CircuitBreaker.currentState: lazily applies the rolling-window
renewal (Closed) or the Open→HalfOpen timeout transition, then reports the
state and generation it left the breaker in. -/
def currentState (cfg : CBConfig) (cb : CBData) (now : Nat) : CBData × CBState × Nat :=
  let cb1 :=
    match cb.state with
    | .closed => if cb.expiry ≠ 0 ∧ cb.expiry < now then toNewGeneration cfg cb now else cb
    | .opened => if cb.expiry < now then setState cfg cb .halfOpen now else cb
    | .halfOpen => cb
  (cb1, cb1.state, cb1.generation)

/-- Mirror of CircuitBreaker.beforeRequest. -/
def beforeRequest (cfg : CBConfig) (cb : CBData) (now : Nat) :
    CBData × Except CBError Nat :=
  let r := currentState cfg cb now
  if r.2.1 = CBState.opened then (r.1, .error .openState)
  else if r.2.1 = CBState.halfOpen ∧ cfg.maxRequests ≤ r.1.counts.requests then
    (r.1, .error .tooManyRequests)
  else
    ({ r.1 with counts := { r.1.counts with requests := r.1.counts.requests + 1 } },
     .ok r.2.2)

/-- Mirror of CircuitBreaker.onSuccess. -/
def onSuccess (cfg : CBConfig) (cb : CBData) (st : CBState) (now : Nat) : CBData :=
  match st with
  | .closed =>
      { cb with counts :=
        { cb.counts with
          totalSuccesses := cb.counts.totalSuccesses + 1
          consecutiveSuccesses := cb.counts.consecutiveSuccesses + 1
          consecutiveFailures := 0 } }
  | .halfOpen =>
      let cb1 :=
        { cb with counts :=
          { cb.counts with
            totalSuccesses := cb.counts.totalSuccesses + 1
            consecutiveSuccesses := cb.counts.consecutiveSuccesses + 1
            consecutiveFailures := 0 } }
      if cfg.maxRequests ≤ cb1.counts.consecutiveSuccesses then
        setState cfg cb1 .closed now
      else cb1
  | .opened => cb

/-- Mirror of CircuitBreaker.onFailure. -/
def onFailure (cfg : CBConfig) (cb : CBData) (st : CBState) (now : Nat) : CBData :=
  match st with
  | .closed =>
      let cb1 :=
        { cb with counts :=
          { cb.counts with
            totalFailures := cb.counts.totalFailures + 1
            consecutiveFailures := cb.counts.consecutiveFailures + 1
            consecutiveSuccesses := 0 } }
      if cfg.readyToTrip cb1.counts then setState cfg cb1 .opened now else cb1
  | .halfOpen => setState cfg cb .opened now
  | .opened => cb

/-- Mirror of CircuitBreaker.afterRequest: outcomes carrying a stale
generation are discarded. -/
def afterRequest (cfg : CBConfig) (cb : CBData) (before : Nat) (success : Bool)
    (now : Nat) : CBData :=
  let r := currentState cfg cb now
  if r.2.2 ≠ before then r.1
  else if success then onSuccess cfg r.1 r.2.1 now
  else onFailure cfg r.1 r.2.1 now

/-- Mirror of NewCircuitBreaker for a config with nonzero fields (both
processor configs have nonzero maxRequests/interval/timeout): zero-valued
breaker followed by toNewGeneration(now). -/
def newCircuitBreaker (cfg : CBConfig) (now : Nat) : CBData :=
  toNewGeneration cfg ⟨.closed, 0, Counts.zero, 0⟩ now

/-- One CircuitBreaker.Execute round for a request whose admission happens
at `tBefore` and whose outcome lands at `tAfter`. -/
def executeStep (cfg : CBConfig) (cb : CBData) (success : Bool)
    (tBefore tAfter : Nat) : CBData × Except CBError Unit :=
  let r := beforeRequest cfg cb tBefore
  match r.2 with
  | .error e => (r.1, .error e)
  | .ok gen => (afterRequest cfg r.1 gen success tAfter, .ok ())

/-- ReadyToTrip of the default processor (processor_breaker.go): with at
least 5 requests the decision is failure-rate ≥ 0.6 alone, otherwise it is
3 consecutive failures.  The Go float64 comparison
`float64(TotalFailures)/float64(Requests) >= 0.6` coincides with the exact
rational comparison for all uint32 counts (a disagreement would need
requests beyond 10^16). -/
def defaultReadyToTrip (c : Counts) : Bool :=
  if 5 ≤ c.requests then decide (6 * c.requests ≤ 10 * c.totalFailures)
  else decide (3 ≤ c.consecutiveFailures)

/-- ReadyToTrip of the fallback processor (rate ≥ 0.8, 5 consecutive). -/
def fallbackReadyToTrip (c : Counts) : Bool :=
  if 5 ≤ c.requests then decide (8 * c.requests ≤ 10 * c.totalFailures)
  else decide (5 ≤ c.consecutiveFailures)

/-- Default-processor breaker config (MaxRequests 3, Interval 10 s,
Timeout 30 s), times in seconds. -/
def defaultBreakerConfig : CBConfig := ⟨3, 10, 30, defaultReadyToTrip⟩

/-- Fallback-processor breaker config (MaxRequests 5, Interval 15 s,
Timeout 45 s). -/
def fallbackBreakerConfig : CBConfig := ⟨5, 15, 45, fallbackReadyToTrip⟩

/-- Trip predicate exactly as the spec's table words it, for the default
processor: consecutive_failures ≥ 3, OR requests ≥ 5 ∧ failure_rate ≥ 0.6. -/
def specTripDefault (c : Counts) : Bool :=
  decide (3 ≤ c.consecutiveFailures) ||
    (decide (5 ≤ c.requests) && decide (6 * c.requests ≤ 10 * c.totalFailures))

/-- Trip predicate exactly as the spec's table words it, for the fallback
processor: consecutive_failures ≥ 5, OR requests ≥ 5 ∧ failure_rate ≥ 0.8. -/
def specTripFallback (c : Counts) : Bool :=
  decide (5 ≤ c.consecutiveFailures) ||
    (decide (5 ≤ c.requests) && decide (8 * c.requests ≤ 10 * c.totalFailures))

/-- A concrete run of the default breaker: created at time 1, then three
successful calls (times 2,3,4) and three failed calls (times 5,6,7), all
inside the 10 s rolling window. -/
def c7RunSteps : List (Bool × Nat) := [(true, 2), (true, 3), (true, 4), (false, 5), (false, 6), (false, 7)]

def c7Run : CBData :=
  c7RunSteps.foldl
    (fun cb p => (executeStep defaultBreakerConfig cb p.1 p.2 p.2).1)
    (newCircuitBreaker defaultBreakerConfig 1)

/-- C7 counterexample: after 3 successes and 3 consecutive failures the
default breaker holds the reachable counts record
(requests 6, failures 3, consecutive failures 3) and stays Closed, although
the claimed trip predicate (consecutive_failures ≥ 3 OR ...) is true of that
record: the code consults consecutive failures only below 5 requests. -/
theorem c7_counterexample :
    c7Run.state = CBState.closed ∧
    c7Run.counts = ⟨6, 3, 3, 0, 3⟩ ∧
    specTripDefault c7Run.counts = true ∧
    defaultReadyToTrip c7Run.counts = false := by decide

/-- C7 (amended): in the Closed state the breaker trips exactly when
(requests ≥ 5 and failure_rate ≥ threshold) or (requests < 5 and
consecutive_failures ≥ threshold) — the consecutive-failure arm applies only
while fewer than 5 requests were counted (thresholds 0.6/3 for the default
breaker, 0.8/5 for the fallback breaker). -/
theorem c7_trip_characterization :
    ∀ c : Counts,
      (defaultReadyToTrip c =
        ((decide (5 ≤ c.requests) && decide (6 * c.requests ≤ 10 * c.totalFailures)) ||
         (decide (c.requests < 5) && decide (3 ≤ c.consecutiveFailures)))) ∧
      (fallbackReadyToTrip c =
        ((decide (5 ≤ c.requests) && decide (8 * c.requests ≤ 10 * c.totalFailures)) ||
         (decide (c.requests < 5) && decide (5 ≤ c.consecutiveFailures)))) := by
  intro c
  refine ⟨?_, ?_⟩ <;> ·
    simp only [defaultReadyToTrip, fallbackReadyToTrip]
    by_cases h : 5 ≤ c.requests
    · simp only [if_pos h]
      simp [h]
    · have h2 : c.requests < 5 := Nat.not_le.mp h
      simp only [if_neg h]
      simp [h, h2]

/-- C8: every state transition of the breaker strictly increases the
monotonic generation counter, and an outcome reported under a prior
generation is discarded: afterRequest then returns exactly the breaker left
by the pure time advance (currentState), with no success/failure recorded,
independent of the outcome. -/
theorem c8_generation_discipline :
    (∀ (cfg : CBConfig) (cb : CBData) (s : CBState) (now : Nat),
       s ≠ cb.state → cb.generation < (setState cfg cb s now).generation) ∧
    (∀ (cfg : CBConfig) (cb : CBData) (before : Nat) (success : Bool) (now : Nat),
       (currentState cfg cb now).2.2 ≠ before →
         afterRequest cfg cb before success now = (currentState cfg cb now).1) := by
  constructor
  · intro cfg cb s now h
    unfold setState
    rw [if_neg (fun hh => h hh.symm)]
    cases s <;> simp [toNewGeneration]
  · intro cfg cb before success now h
    unfold afterRequest
    simp only [if_pos h]

def c8WitnessBreaker : CBData := ⟨.closed, 1, Counts.zero, 0⟩

/-- Witness for C8 at a concrete breaker: a Closed→Open transition at time 5
raises generation 1 to a larger value, and an outcome tagged with stale
generation 99 leaves the breaker exactly where currentState leaves it. -/
theorem c8_generation_discipline_witness :
    ((CBState.opened ≠ c8WitnessBreaker.state) ∧
      c8WitnessBreaker.generation <
        (setState defaultBreakerConfig c8WitnessBreaker CBState.opened 5).generation) ∧
    (((currentState defaultBreakerConfig c8WitnessBreaker 5).2.2 ≠ 99) ∧
      afterRequest defaultBreakerConfig c8WitnessBreaker 99 true 5 =
        (currentState defaultBreakerConfig c8WitnessBreaker 5).1) :=
  ⟨⟨by decide, c8_generation_discipline.1 defaultBreakerConfig c8WitnessBreaker CBState.opened 5 (by decide)⟩,
   ⟨by decide, c8_generation_discipline.2 defaultBreakerConfig c8WitnessBreaker 99 true 5 (by decide)⟩⟩

/-! ## Payment storage and aggregation (internal/redis/storage.go) -/

/-- Mirror of models.PaymentStatus. -/
inductive PaymentStatus
  | pending
  | processing
  | completed
  | failed
deriving DecidableEq, Repr

/-- The two processors (processors.ProcessorType). -/
inductive ProcessorType
  | defaultProc
  | fallbackProc
deriving DecidableEq, Repr

/-- The per-payment record kept at key payment:<id>; uuid keys are
modelled as Nat.  Fee/processor/processed_at fields do not affect the
aggregates and are elided. -/
structure PaymentRec where
  correlationId : Nat
  amount : ℚ
  status : PaymentStatus
deriving DecidableEq, Repr

/-- One aggregate hash (summary:default or summary:fallback):
total_requests and total_amount. -/
structure AggSummary where
  totalRequests : Nat
  totalAmount : ℚ
deriving DecidableEq, Repr

/-- The Redis state the storage service manipulates: payment records,
the completed:<id> flags, and the two aggregate summaries. -/
structure StoreState where
  payments : List (Nat × PaymentRec)
  completedFlags : List Nat
  summaryDefault : AggSummary
  summaryFallback : AggSummary
deriving DecidableEq, Repr

def StoreState.init : StoreState := ⟨[], [], ⟨0, 0⟩, ⟨0, 0⟩⟩

def lookupPayment (ps : List (Nat × PaymentRec)) (pid : Nat) : Option PaymentRec :=
  (ps.find? (fun kv => kv.1 == pid)).map Prod.snd

/-- Redis SET on key payment:<pid>: overwrite when present, insert
otherwise. -/
def setPaymentKey (ps : List (Nat × PaymentRec)) (pid : Nat) (pay : PaymentRec) :
    List (Nat × PaymentRec) :=
  if (ps.find? (fun kv => kv.1 == pid)).isSome then
    ps.map (fun kv => if kv.1 == pid then (pid, pay) else kv)
  else (pid, pay) :: ps

/-- The storage operations driven by the ingress and the workers:
CreatePayment (a submission with its freshly generated uuid),
UpdatePaymentStatus, and CompletePayment. -/
inductive StoreOp
  | createPayment (pid corrId : Nat) (amount : ℚ)
  | updateStatus (pid : Nat) (st : PaymentStatus)
  | completePayment (pid : Nat) (proc : ProcessorType)
deriving DecidableEq, Repr

/-- HINCRBY summary total_requests 1 plus HINCRBYFLOAT total_amount. -/
def bumpSummary (s : StoreState) (proc : ProcessorType) (amount : ℚ) : StoreState :=
  match proc with
  | .defaultProc =>
      { s with summaryDefault :=
        ⟨s.summaryDefault.totalRequests + 1, s.summaryDefault.totalAmount + amount⟩ }
  | .fallbackProc =>
      { s with summaryFallback :=
        ⟨s.summaryFallback.totalRequests + 1, s.summaryFallback.totalAmount + amount⟩ }

/-- One storage operation.  Returns the next state and, when the operation
performed an aggregate increment, the (payment id, correlation id) it was
for.  CompletePayment follows storage.go: missing payment → error (no
change); status already Completed → no-op; completion flag already present
(the Lua script's EXISTS check) → no-op; otherwise one atomic update that
sets the flag, completes the record and increments the aggregate. -/
def storeStep (s : StoreState) (op : StoreOp) : StoreState × Option (Nat × Nat) :=
  match op with
  | .createPayment pid corrId amount =>
      ({ s with payments := setPaymentKey s.payments pid ⟨corrId, amount, .pending⟩ }, none)
  | .updateStatus pid st =>
      match lookupPayment s.payments pid with
      | none => (s, none)
      | some pay =>
          ({ s with payments := setPaymentKey s.payments pid { pay with status := st } }, none)
  | .completePayment pid proc =>
      match lookupPayment s.payments pid with
      | none => (s, none)
      | some pay =>
          if pay.status = .completed then (s, none)
          else if pid ∈ s.completedFlags then (s, none)
          else
            (bumpSummary
              { s with
                payments := setPaymentKey s.payments pid { pay with status := .completed }
                completedFlags := pid :: s.completedFlags }
              proc pay.amount,
             some (pid, pay.correlationId))

/-- Runs a sequence of storage operations, collecting the aggregate
increments in order. -/
def storeRun (s : StoreState) : List StoreOp → StoreState × List (Nat × Nat)
  | [] => (s, [])
  | op :: rest =>
      let r := storeStep s op
      let r2 := storeRun r.1 rest
      (r2.1, match r.2 with | some i => i :: r2.2 | none => r2.2)

/-- Number of aggregate increments a run performs for payments carrying
correlation id `c`. -/
def incrementsForCorrelation (ops : List StoreOp) (c : Nat) : Nat :=
  ((storeRun StoreState.init ops).2.filter (fun i => i.2 == c)).length

/-- Number of aggregate increments a run performs for payment id `pid`. -/
def incrementsForPayment (ops : List StoreOp) (pid : Nat) : Nat :=
  ((storeRun StoreState.init ops).2.filter (fun i => i.1 == pid)).length

/-- C1 exactly as claimed: every correlation id sees at most one aggregate
increment over every sequence of submissions and completions. -/
def atMostOnceClaimPerCorrelation : Prop :=
  ∀ (ops : List StoreOp) (c : Nat), incrementsForCorrelation ops c ≤ 1

/-- Re-submission of correlation id 100: each POST generates a fresh
payment uuid (1 then 2), both jobs complete, and each completion
increments the aggregate, because the completion flag is keyed by payment
id, not correlation id. -/
def c1CounterOps : List StoreOp :=
  [.createPayment 1 100 5, .createPayment 2 100 5,
   .completePayment 1 .defaultProc, .completePayment 2 .defaultProc]

/-- C1 counterexample: the run c1CounterOps performs two aggregate
increments for the single correlation id 100. -/
theorem c1_counterexample : ¬ atMostOnceClaimPerCorrelation :=
  fun h => absurd (h c1CounterOps 100) (by decide)

theorem storeStep_cases (s : StoreState) (op : StoreOp) :
    ((storeStep s op).2 = none ∧ (storeStep s op).1.completedFlags = s.completedFlags) ∨
    (∃ pid c, (storeStep s op).2 = some (pid, c) ∧ pid ∉ s.completedFlags ∧
       (storeStep s op).1.completedFlags = pid :: s.completedFlags) := by
  cases op with
  | createPayment p c a => exact Or.inl ⟨rfl, rfl⟩
  | updateStatus p st =>
      simp only [storeStep]
      split <;> exact Or.inl ⟨rfl, rfl⟩
  | completePayment p proc =>
      simp only [storeStep]
      split
      · exact Or.inl ⟨rfl, rfl⟩
      · rename_i pay _
        split
        · exact Or.inl ⟨rfl, rfl⟩
        · split
          · exact Or.inl ⟨rfl, rfl⟩
          · rename_i h1 h2
            right
            refine ⟨p, pay.correlationId, rfl, h2, ?_⟩
            cases proc <;> simp [bumpSummary]

theorem storeRun_cons (s : StoreState) (op : StoreOp) (rest : List StoreOp) :
    (storeRun s (op :: rest)).2 =
      (match (storeStep s op).2 with
       | some i => i :: (storeRun (storeStep s op).1 rest).2
       | none => (storeRun (storeStep s op).1 rest).2) := rfl

theorem storeRun_no_inc_of_flag {pid : Nat} :
    ∀ (ops : List StoreOp) (s : StoreState), pid ∈ s.completedFlags →
      ((storeRun s ops).2.filter (fun i => i.1 == pid)).length = 0 := by
  intro ops
  induction ops with
  | nil => intro s _; simp [storeRun]
  | cons op rest ih =>
      intro s hs
      rw [storeRun_cons]
      rcases storeStep_cases s op with ⟨h2, hflags⟩ | ⟨q, c, h2, hq, hflags⟩
      · rw [h2]
        exact ih (storeStep s op).1 (hflags ▸ hs)
      · rw [h2]
        have hqp : ¬ (q == pid) = true := by
          intro hb
          exact hq ((beq_iff_eq.mp hb) ▸ hs)
        have htail : pid ∈ (storeStep s op).1.completedFlags := by
          rw [hflags]; exact List.mem_cons_of_mem q hs
        simp [List.filter, hqp, ih (storeStep s op).1 htail]

/-- C1 (amended): the completion flag keyed by payment id makes completion
idempotent per payment id — every run performs at most one aggregate
increment per payment id.  Distinct submissions of the same correlation id
get distinct payment ids and are each counted separately. -/
theorem c1_at_most_once_per_payment :
    ∀ (ops : List StoreOp) (pid : Nat), incrementsForPayment ops pid ≤ 1 := by
  have main : ∀ (ops : List StoreOp) (s : StoreState) (pid : Nat),
      ((storeRun s ops).2.filter (fun i => i.1 == pid)).length ≤ 1 := by
    intro ops
    induction ops with
    | nil => intro s pid; simp [storeRun]
    | cons op rest ih =>
        intro s pid
        rw [storeRun_cons]
        rcases storeStep_cases s op with ⟨h2, _⟩ | ⟨q, c, h2, _, hflags⟩
        · rw [h2]
          exact ih (storeStep s op).1 pid
        · rw [h2]
          by_cases hq : (q == pid) = true
          · have hflag : pid ∈ (storeStep s op).1.completedFlags := by
              rw [hflags, (beq_iff_eq.mp hq)]
              exact List.mem_cons_self pid s.completedFlags
            simp [List.filter, hq, storeRun_no_inc_of_flag rest (storeStep s op).1 hflag]
          · simp only [List.filter_cons, hq, if_neg, Bool.false_eq_true, not_false_eq_true,
              ite_false]
            exact ih (storeStep s op).1 pid
  intro ops pid
  exact main ops StoreState.init pid

/-! ## Ingress handler (createPaymentHandler, async variant in part_014) -/

/-- Observable steps of one POST /payments request, in program order of the
request's lifecycle (the goroutine body runs after the response is
written). -/
inductive IngressEvent
  | respond (status : Nat)
  | auditInsert (ok : Bool)
  | enqueueJob
deriving DecidableEq, Repr

/-- Event trace of the async createPaymentHandler: bind errors and
non-positive amounts get 400; otherwise the 202 response is written first
and the goroutine then performs CreatePayment and, when it succeeded,
PublishPaymentJob (whose own error is discarded). -/
def createPaymentHandlerAsync (bindOk : Bool) (amount : ℚ) (createOk : Bool) :
    List IngressEvent :=
  if bindOk = false then [.respond 400]
  else if amount ≤ 0 then [.respond 400]
  else .respond 202 ::
    (if createOk then [.auditInsert true, .enqueueJob] else [.auditInsert false])

/-- Scans a trace and checks that every 2xx response is preceded by an
enqueue. -/
def scanEnqueueBefore2xx (seenEnqueue : Bool) : List IngressEvent → Bool
  | [] => true
  | .respond st :: rest =>
      if 200 ≤ st ∧ st < 300 then seenEnqueue && scanEnqueueBefore2xx seenEnqueue rest
      else scanEnqueueBefore2xx seenEnqueue rest
  | .enqueueJob :: rest => scanEnqueueBefore2xx true rest
  | .auditInsert _ :: rest => scanEnqueueBefore2xx seenEnqueue rest

def enqueueBeforeEvery2xx (tr : List IngressEvent) : Bool :=
  scanEnqueueBefore2xx false tr

/-- C2 exactly as claimed: on every POST /payments the enqueue precedes any
2xx response. -/
def enqueueBeforeResponseClaim : Prop :=
  ∀ (bindOk : Bool) (amount : ℚ) (createOk : Bool),
    enqueueBeforeEvery2xx (createPaymentHandlerAsync bindOk amount createOk) = true

/-- C2 counterexample: a well-formed request of amount 10 whose audit insert
succeeds is answered 202 before the job is enqueued. -/
theorem c2_counterexample : ¬ enqueueBeforeResponseClaim :=
  fun h => absurd (h true 10 true) (by decide)

/-- C2 (amended): for every valid request the handler writes the 202
response first; the enqueue happens asynchronously after the response, and
only when the audit insert succeeded. -/
theorem c2_responds_before_enqueue :
    ∀ (amount : ℚ) (createOk : Bool), 0 < amount →
      ∃ rest, createPaymentHandlerAsync true amount createOk =
          IngressEvent.respond 202 :: rest ∧
        (IngressEvent.enqueueJob ∈ rest ↔ createOk = true) := by
  intro amount createOk h
  refine ⟨if createOk then [.auditInsert true, .enqueueJob] else [.auditInsert false], ?_, ?_⟩
  · simp [createPaymentHandlerAsync, not_le.mpr h]
  · cases createOk <;> simp

/-- Witness for C2 (amended) at amount 1 with a successful audit insert. -/
theorem c2_responds_before_enqueue_witness :
    (0 : ℚ) < 1 ∧
      ∃ rest, createPaymentHandlerAsync true 1 true = IngressEvent.respond 202 :: rest ∧
        (IngressEvent.enqueueJob ∈ rest ↔ true = true) :=
  ⟨by norm_num, c2_responds_before_enqueue 1 true (by norm_num)⟩

/-! ## Job queue records and the worker's outbound call (part_011,
internal/workers/payment_worker.go, part_009) -/

/-- Mirror of models.Payment restricted to the fields the queue uses. -/
structure PaymentModel where
  id : Nat
  correlationId : Nat
  amount : ℚ
  requestedAt : Nat
deriving DecidableEq, Repr

/-- Mirror of redis.PaymentJob: payment_id, correlation_id, amount in
cents, requested_at. -/
structure QueueJob where
  paymentId : Nat
  correlationId : Nat
  amountCents : Int
  requestedAt : Nat
deriving DecidableEq, Repr

/-- Mirror of Service.PublishPaymentJob: cents via int64(amount*100)
(truncation, amounts are positive), requested_at copied from the payment. -/
def publishPaymentJob (p : PaymentModel) : QueueJob :=
  ⟨p.id, p.correlationId, ⌊p.amount * 100⌋, p.requestedAt⟩

/-- Mirror of Service.RetryPaymentJob: the job goes back to the main queue
verbatim. -/
def retryPaymentJob (job : QueueJob) : QueueJob := job

/-- Mirror of processors.PaymentProcessorRequest (requestedAt is formatted
from the time the worker passes in). -/
structure OutboundRequest where
  correlationId : Nat
  amount : ℚ
  requestedAt : Nat
deriving DecidableEq, Repr

/-- The outbound request the worker builds in processPayment
(payment_worker.go lines 89-102): amount = float64(job.Amount)/100 and
requestedAt := time.Now() — the job's requested_at field is ignored. -/
def processPaymentOutbound (job : QueueJob) (now : Nat) : OutboundRequest :=
  ⟨job.correlationId, (job.amountCents : ℚ) / 100, now⟩

def c3ExamplePayment : PaymentModel := ⟨7, 42, 199/10, 100⟩

/-- C3: the queue and every requeue carry the ingress requested_at (100)
verbatim, but the worker's outbound call stamps the processing time (250)
instead, so the processor-side requestedAt differs from the ingress
timestamp. -/
theorem c3_requested_at_rewritten :
    (publishPaymentJob c3ExamplePayment).requestedAt = c3ExamplePayment.requestedAt ∧
    (retryPaymentJob (publishPaymentJob c3ExamplePayment)).requestedAt =
      c3ExamplePayment.requestedAt ∧
    (processPaymentOutbound (publishPaymentJob c3ExamplePayment) 250).requestedAt = 250 ∧
    (processPaymentOutbound (publishPaymentJob c3ExamplePayment) 250).requestedAt ≠
      c3ExamplePayment.requestedAt := by decide

/-! ## Outbound processor client (Client.ProcessPayment, part_009) -/

/-- What one outbound POST {base}/payments can come back with:
a transport error (including timeouts), or an HTTP response whose decoded
message field is `none` when the body fails to decode. -/
inductive ProcCallResult
  | networkError
  | httpResponse (status : Nat) (body : Option String)
deriving DecidableEq, Repr

inductive ProcCallError
  | network
  | serverError (code : Nat)
  | clientError (code : Nat)
  | decodeFailure
  | invalidMessage (msg : String)
deriving DecidableEq, Repr

/-- Mirror of Client.ProcessPayment's result classification: transport
error → error; status ≥ 500 → server error; status ≠ 200 → error; decode
failure → error; message ≠ "payment processed successfully" → error;
otherwise success. -/
def clientProcessPayment : ProcCallResult → Except ProcCallError Unit
  | .networkError => .error .network
  | .httpResponse status body =>
      if 500 ≤ status then .error (.serverError status)
      else if status ≠ 200 then .error (.clientError status)
      else
        match body with
        | none => .error .decodeFailure
        | some msg =>
            if msg = "payment processed successfully" then .ok ()
            else .error (.invalidMessage msg)

def exceptOk {ε α : Type} : Except ε α → Bool
  | .ok _ => true
  | .error _ => false

/-- Success exactly as the spec words it: HTTP 2xx with the fixed message;
everything else fails. -/
def specCallSuccess : ProcCallResult → Bool
  | .networkError => false
  | .httpResponse status body =>
      decide (200 ≤ status ∧ status < 300) &&
        (body == some "payment processed successfully")

/-- C6 exactly as claimed: the client's success test agrees with the
spec's 2xx-plus-message test on every possible call result. -/
def clientSuccessClaim : Prop :=
  ∀ r : ProcCallResult, exceptOk (clientProcessPayment r) = specCallSuccess r

/-- C6 counterexample: a 201 response with the exact success message is a
failure for the client (it requires status == 200), yet a success under the
claimed 2xx rule. -/
theorem c6_counterexample : ¬ clientSuccessClaim :=
  fun h => absurd (h (.httpResponse 201 (some "payment processed successfully"))) (by decide)

/-- C6 (amended): an outbound call is treated as success exactly when the
HTTP status is 200 (not any other 2xx) and the decoded message equals
"payment processed successfully"; any other status, decode failure,
non-matching message or transport error/timeout is a failure. -/
theorem c6_success_characterization :
    ∀ r : ProcCallResult,
      exceptOk (clientProcessPayment r) = true ↔
        r = ProcCallResult.httpResponse 200 (some "payment processed successfully") := by
  intro r
  cases r with
  | networkError => simp [clientProcessPayment, exceptOk]
  | httpResponse status body =>
      simp only [clientProcessPayment]
      by_cases h5 : 500 ≤ status
      · simp [h5, exceptOk]; omega
      · by_cases h2 : status = 200
        · subst h2
          cases body with
          | none => simp [exceptOk]
          | some msg =>
              by_cases hm : msg = "payment processed successfully" <;>
                simp [hm, exceptOk]
        · simp [h5, h2, exceptOk]

/-! ## Worker routing and failure handling (ProcessPaymentWithFallback in
part_010, processPayment in payment_worker.go) -/

/-- Routing result of ProcessPaymentWithFallback given whether each
processor is attempted (breaker not Open and health gate passed) and what
its call returns: first success wins, otherwise a single error for the
caller. -/
def processPaymentWithFallbackModel (tryDefault : Bool) (defaultRes : ProcCallResult)
    (tryFallback : Bool) (fallbackRes : ProcCallResult) : Except Unit ProcessorType :=
  if tryDefault && exceptOk (clientProcessPayment defaultRes) then .ok .defaultProc
  else if tryFallback && exceptOk (clientProcessPayment fallbackRes) then .ok .fallbackProc
  else .error ()

inductive WorkerOutcome
  | completed (proc : ProcessorType)
  | requeued
  | markedFailed
deriving DecidableEq, Repr

/-- Mirror of processPayment's reaction to the routing result
(payment_worker.go lines 102-111): success → CompletePayment; error →
RetryPaymentJob, and the audit row is marked Failed only when even the
retry publish fails. -/
def workerHandleResult (res : Except Unit ProcessorType) (retryPublishOk : Bool) :
    WorkerOutcome :=
  match res with
  | .ok p => .completed p
  | .error _ => if retryPublishOk then .requeued else .markedFailed

/-- C5 exactly as claimed: a non-duplicate 4xx from both processors is
classified permanent — audit marked Failed, no requeue. -/
def permanent4xxClaim : Prop :=
  ∀ (status : Nat) (retryPublishOk : Bool),
    400 ≤ status → status < 500 → status ≠ 422 → status ≠ 409 →
    workerHandleResult
      (processPaymentWithFallbackModel true (.httpResponse status none) true
        (.httpResponse status none)) retryPublishOk = .markedFailed

/-- C5 counterexample: on a 400 from both processors the worker requeues
the job (retry publish succeeding) instead of marking the audit row
Failed. -/
theorem c5_counterexample : ¬ permanent4xxClaim :=
  fun h => absurd (h 400 true (by norm_num) (by norm_num) (by norm_num) (by norm_num))
    (by decide)

/-- C5 (amended): the worker treats every processor failure as transient.
Whenever both attempts fail — 4xx of any kind included — the job is
requeued when the retry publish succeeds, and the audit row is marked
Failed only when the retry publish itself fails; there is no
duplicate-422/409 special case. -/
theorem c5_all_failures_requeued :
    ∀ (status : Nat) (retryPublishOk : Bool), 400 ≤ status → status < 500 →
      workerHandleResult
        (processPaymentWithFallbackModel true (.httpResponse status none) true
          (.httpResponse status none)) retryPublishOk =
        (if retryPublishOk then WorkerOutcome.requeued else WorkerOutcome.markedFailed) := by
  intro status retryPublishOk h4 h5
  have hfail : exceptOk (clientProcessPayment (.httpResponse status none)) = false := by
    simp only [clientProcessPayment]
    by_cases hs : 500 ≤ status
    · simp [hs, exceptOk]
    · have : status ≠ 200 := by omega
      simp [hs, this, exceptOk]
  simp [processPaymentWithFallbackModel, hfail, workerHandleResult]

/-- Witness for C5 (amended): a 422 (the would-be duplicate status) on both
processors with a succeeding retry publish leads to a requeue. -/
theorem c5_all_failures_requeued_witness :
    (400 ≤ 422 ∧ 422 < 500) ∧
      workerHandleResult
        (processPaymentWithFallbackModel true (.httpResponse 422 none) true
          (.httpResponse 422 none)) true =
        (if true then WorkerOutcome.requeued else WorkerOutcome.markedFailed) :=
  ⟨⟨by norm_num, by norm_num⟩, c5_all_failures_requeued 422 true (by norm_num) (by norm_num)⟩

/-! ## Worker health gating (isProcessorHealthy in part_010) -/

/-- Mirror of ProcessorService.isProcessorHealthy as a pure decision.
Inputs: the shared Redis cache read (error, or ok with the entry when it
exists), the process-local cache (last check instant and cached value), the
cooldown and current instants, and what a direct CheckHealth call would
return.  Output: (healthy?, whether a direct service-health call was made
on this path).  The local-cache writes of checkAndCacheHealth are elided;
they do not affect the returned decision. -/
def isProcessorHealthy (redisHealth : Except Unit (Option Bool))
    (localLastCheck : Option Nat) (localCached : Bool)
    (cooldown now : Nat) (directCheckOutcome : Bool) : Bool × Bool :=
  match redisHealth with
  | .ok (some healthy) => (healthy, false)
  | _ =>
      match localLastCheck with
      | some lastCheck =>
          if now - lastCheck < cooldown then (localCached, false)
          else (directCheckOutcome, true)
      | none => (directCheckOutcome, true)

/-- C4 exactly as claimed: with the shared health-cache entry absent or
expired the worker assumes healthy and performs no service-health call on
the hot path. -/
def assumeHealthyOnAbsenceClaim : Prop :=
  ∀ (localLastCheck : Option Nat) (localCached : Bool) (cooldown now : Nat)
    (directCheckOutcome : Bool),
    isProcessorHealthy (.ok none) localLastCheck localCached cooldown now
      directCheckOutcome = (true, false)

/-- C4 counterexample: shared entry absent, local cache empty, and a
failing direct probe — the worker performs a service-health call on the hot
path and reports unhealthy, instead of assuming healthy. -/
theorem c4_counterexample : ¬ assumeHealthyOnAbsenceClaim :=
  fun h => absurd (h none false 5 10 false) (by decide)

/-- C4 (amended): when the shared health-cache entry is absent the worker
falls back to a process-local cache with a 5 s cooldown; with no fresh
local entry it performs a direct service-health call on the hot path and
uses that call's outcome — it does not assume the processor healthy.  Only
a fresh local entry is answered without a call. -/
theorem c4_fallback_health_check :
    ∀ (localCached : Bool) (cooldown now lastCheck : Nat) (outcome : Bool),
      (isProcessorHealthy (.ok none) none localCached cooldown now outcome =
        (outcome, true)) ∧
      (cooldown ≤ now - lastCheck →
        isProcessorHealthy (.ok none) (some lastCheck) localCached cooldown now outcome =
          (outcome, true)) ∧
      (now - lastCheck < cooldown →
        isProcessorHealthy (.ok none) (some lastCheck) localCached cooldown now outcome =
          (localCached, false)) := by
  intro localCached cooldown now lastCheck outcome
  refine ⟨rfl, fun h => ?_, fun h => ?_⟩
  · simp [isProcessorHealthy, Nat.not_lt.mpr h]
  · simp [isProcessorHealthy, h]

/-- Witness for C4 (amended) at cooldown 5: an empty local cache probes
directly; a check 10 s ago probes directly; a check 2 s ago answers from
the local cache. -/
theorem c4_fallback_health_check_witness :
    (isProcessorHealthy (.ok none) none true 5 12 false = (false, true)) ∧
    ((5 : Nat) ≤ 12 - 2 ∧
      isProcessorHealthy (.ok none) (some 2) true 5 12 false = (false, true)) ∧
    ((12 : Nat) - 11 < 5 ∧
      isProcessorHealthy (.ok none) (some 11) true 5 12 false = (true, false)) :=
  ⟨(c4_fallback_health_check true 5 12 2 false).1,
   ⟨by norm_num, (c4_fallback_health_check true 5 12 2 false).2.1 (by norm_num)⟩,
   ⟨by norm_num, (c4_fallback_health_check true 5 12 11 false).2.2 (by norm_num)⟩⟩

/-! ## Database health handler (database.go Health) -/

/-- Outcome of the Health() method: either an HTTP-visible stats map
(restricted here to its status field) or process termination. -/
inductive HealthOutcome
  | responds (status : String)
  | fatalExit
deriving DecidableEq, Repr

/-- Mirror of service.Health(): on a ping error it calls log.Fatalf, which
prints and then calls os.Exit(1) — the `return stats` after it is
unreachable; on success it reports status "up" (connection statistics
elided). -/
def databaseHealth (pingError : Option String) : HealthOutcome :=
  match pingError with
  | some _ => HealthOutcome.fatalExit
  | none => HealthOutcome.responds "up"

/-- C9: whenever the database ping fails, Health() terminates the whole
process and never returns a response map, so a /health request with an
unreachable database never produces an HTTP response. -/
theorem c9_health_fatal_on_db_down :
    ∀ err : String,
      databaseHealth (some err) = HealthOutcome.fatalExit ∧
      ∀ st : String, databaseHealth (some err) ≠ HealthOutcome.responds st := by
  intro err
  exact ⟨rfl, fun st h => by cases h⟩

/-! ## Channel-based worker pool (part_008) and the synchronous handler
(server.go lines 166-202) -/

/-- Mirror of workers.PaymentJob in the channel-based pool. -/
structure ChannelJob where
  paymentId : Nat
  correlationId : Nat
  amount : ℚ
  requestedAt : Nat
deriving DecidableEq, Repr

/-- Mirror of PaymentWorkerPool.SubmitPayment: the select sends when the
buffered channel has room, reports the context error when the context is
done, and otherwise hits the default branch — returning nil with the job
dropped. -/
def submitPayment (queue : List ChannelJob) (queueSize : Nat) (ctxDone : Bool)
    (job : ChannelJob) : List ChannelJob × Option String :=
  if queue.length < queueSize then (queue ++ [job], none)
  else if ctxDone then (queue, some "context canceled")
  else (queue, none)

/-- Status code of the synchronous createPaymentHandler: 400 on bind or
amount validation, 500 when CreatePayment or SubmitPayment errors, else
202. -/
def createPaymentHandlerSync (bindOk : Bool) (amount : ℚ) (createOk : Bool)
    (submitErr : Option String) : Nat :=
  if bindOk = false then 400
  else if amount ≤ 0 then 400
  else if createOk = false then 500
  else
    match submitErr with
    | some _ => 500
    | none => 202

/-- C10: with the in-process job queue full and the context live,
SubmitPayment leaves the queue unchanged, silently drops the job and
returns nil, and the ingress therefore answers 202 for a payment that will
never be processed. -/
theorem c10_full_queue_silent_drop :
    ∀ (queue : List ChannelJob) (queueSize : Nat) (job : ChannelJob) (amount : ℚ),
      ¬ queue.length < queueSize → 0 < amount → job ∉ queue →
      (submitPayment queue queueSize false job).1 = queue ∧
      (submitPayment queue queueSize false job).2 = none ∧
      job ∉ (submitPayment queue queueSize false job).1 ∧
      createPaymentHandlerSync true amount true (submitPayment queue queueSize false job).2
        = 202 := by
  intro queue queueSize job amount hfull hamount hjob
  have hsub : submitPayment queue queueSize false job = (queue, none) := by
    simp [submitPayment, hfull]
  refine ⟨by rw [hsub], by rw [hsub], by rw [hsub]; exact hjob, ?_⟩
  rw [hsub]
  simp [createPaymentHandlerSync, not_le.mpr hamount]

def c10QueuedJob : ChannelJob := ⟨1, 11, 5, 3⟩

def c10DroppedJob : ChannelJob := ⟨2, 22, 7, 4⟩

/-- Witness for C10: a pool of capacity 1 holding one job, context live,
and a second submission of amount 1 — dropped while the handler answers
202. -/
theorem c10_full_queue_silent_drop_witness :
    (¬ [c10QueuedJob].length < 1 ∧ (0 : ℚ) < 1 ∧ c10DroppedJob ∉ [c10QueuedJob]) ∧
    (submitPayment [c10QueuedJob] 1 false c10DroppedJob).1 = [c10QueuedJob] ∧
    (submitPayment [c10QueuedJob] 1 false c10DroppedJob).2 = none ∧
    c10DroppedJob ∉ (submitPayment [c10QueuedJob] 1 false c10DroppedJob).1 ∧
    createPaymentHandlerSync true 1 true
        (submitPayment [c10QueuedJob] 1 false c10DroppedJob).2 = 202 :=
  ⟨⟨by decide, by norm_num, by decide⟩,
   c10_full_queue_silent_drop [c10QueuedJob] 1 c10DroppedJob 1 (by decide) (by norm_num)
     (by decide)⟩

end RinhaBackend
